import Mathlib

/-!
Verification of the presentation-bot core (`src/config.py`).

The source is a small Telegram bot built on python-pptx.  We shallowly embed
the parts of the program the claims are about:

* `PresentationManager` — `create_presentation`, `add_title_slide`,
  `add_content_slide`, `add_image_slide` (python-pptx decks are modelled as a
  list of slides; `prs.slide_layouts[i]` is recorded as the layout index
  `i` : 0 = title layout, 1 = bulleted-content layout, 5 = title-only layout
  used for image slides);
* `Config` — `API_TOKEN` (getenv with an embedded default) and
  `MAX_FILE_SIZE`;
* `PresentationBot.handle_document` — size gate, download to the final path,
  structural check by parsing.

Mutation of a `Presentation` object in place becomes explicit deck passing;
`raise` becomes an error component of the result; the filesystem becomes an
explicit map from paths to byte lists.
-/

namespace HF

/-- python-pptx `Inches`: English Metric Units per inch. -/
def Inches (n : Nat) : Nat := n * 914400

/-- python-pptx `Pt`: EMU per point. -/
def Pt (n : Nat) : Nat := n * 12700

/-- One slide of a deck.  `layout` is the index into `prs.slide_layouts`
used by `add_slide`; `subtitle` is the text of `placeholders[1]` when it has
been written (`none` = placeholder untouched); `bullets` are the paragraphs
added to the content placeholder's text frame, each with its font size in
EMU; `images` are the pictures added by `add_picture` with their
(left, top) offsets. -/
structure Slide where
  layout : Nat
  title : String := ""
  subtitle : Option String := none
  bullets : List (String × Nat) := []
  images : List (String × Nat × Nat) := []
  deriving DecidableEq, Repr

/-- A presentation: the ordered slide collection. -/
structure Deck where
  slides : List Slide
  deriving DecidableEq, Repr

/-- A fresh slide as returned by `prs.slides.add_slide(prs.slide_layouts[i])`,
before any text or picture is placed on it. -/
def blankSlide (layoutIdx : Nat) : Slide := { layout := layoutIdx }

/-- Typed failures of the manager operations (`raise FileNotFoundError` in the
source, split by which resource is missing as the spec's taxonomy does). -/
inductive PMError
  | TemplateNotFound (name : String)
  | ResourceNotFound (path : String)
  deriving DecidableEq, Repr

/-- Python truthiness of the `template_name: Optional[str]` argument:
`if template_name:` is true exactly for a present, non-empty string. -/
def strTruthy : Option String → Bool
  | some t => t ≠ ""
  | none => false

/-- `PresentationManager.create_presentation`: with a truthy `template_name`,
look the template up under `Config.TEMPLATES_PATH` (the catalog, modelled as a
map from names to the decks their files parse to) and raise
`FileNotFoundError` when the file does not exist; otherwise return
`Presentation()`, a blank deck with zero slides. -/
def create_presentation (catalog : String → Option Deck)
    (template_name : Option String) : Except PMError Deck :=
  if strTruthy template_name then
    let t := template_name.getD ""
    match catalog t with
    | some d => .ok d
    | none => .error (.TemplateNotFound t)
  else
    .ok { slides := [] }

/-- `PresentationManager.add_title_slide`: append a slide from layout 0, set
its title, and write `placeholders[1]` only when `subtitle` is truthy
(`if subtitle:`).  The source performs no validation and cannot fail. -/
def add_title_slide (prs : Deck) (title : String) (subtitle : String) : Deck :=
  let title_slide := { blankSlide 0 with title := title }
  let title_slide :=
    if subtitle ≠ "" then { title_slide with subtitle := some subtitle }
    else title_slide
  { prs with slides := prs.slides ++ [title_slide] }

/-- `PresentationManager.add_content_slide`: append a slide from layout 1, set
its title, and add one 18pt paragraph per entry of `content`. -/
def add_content_slide (prs : Deck) (title : String) (content : List String) :
    Deck :=
  let bullet_slide :=
    { blankSlide 1 with
        title := title
        bullets := content.map fun point => (point, Pt 18) }
  { prs with slides := prs.slides ++ [bullet_slide] }

/-- `PresentationManager.add_image_slide`: append a slide from layout 5 and
set its title; only then check `img_path.exists()`.  If the image exists, add
the picture at offset `(Inches 1, Inches 1)`; otherwise raise
`FileNotFoundError` — but the titled slide has already been appended, so the
deck returned alongside the error carries the extra slide, exactly as the
mutated `prs` does in the source.  `fs` models `Path.exists`. -/
def add_image_slide (fs : String → Bool) (prs : Deck) (title : String)
    (image_path : String) : Deck × Option PMError :=
  let img_slide := { blankSlide 5 with title := title }
  if fs image_path then
    let img_slide :=
      { img_slide with images := [(image_path, Inches 1, Inches 1)] }
    ({ prs with slides := prs.slides ++ [img_slide] }, none)
  else
    ({ prs with slides := prs.slides ++ [img_slide] },
      some (.ResourceNotFound image_path))

/-- `Config.MAX_FILE_SIZE = 500 * 1024 * 1024`. -/
def MAX_FILE_SIZE : Nat := 500 * 1024 * 1024

/-- `Config.API_TOKEN = os.getenv("API_TOKEN", "7567…")`: read the token from
the environment, falling back to the token literal embedded in the source.
`env` models `os.getenv`. -/
def API_TOKEN (env : String → Option String) : String :=
  (env "API_TOKEN").getD "7567293644:AAHVSPgyYAPt_NaUahhdID2njMK-FrtxaRg"

/-- The embedded default token literal of `Config.API_TOKEN`. -/
def embeddedToken : String :=
  "7567293644:AAHVSPgyYAPt_NaUahhdID2njMK-FrtxaRg"

/-- The observable filesystem state of the bot: which byte content (if any)
sits at each path under the process's working directory. -/
structure BotState where
  files : String → Option (List Nat)

/-- Outcome of `bot.download_file(file.file_path, f)` into an open file: the
transfer either completes with the full byte content, or raises after having
written only the bytes transferred so far.  The open file handle keeps what
was written either way; `aiofiles` does not delete it on an exception. -/
inductive Stream
  | complete (bytes : List Nat)
  | interrupted (written : List Nat)
  deriving DecidableEq, Repr

/-- The reply `handle_document` sends back for the upload. -/
inductive DocResponse
  | tooLarge
  | success (slideCount : Nat)
  | processingError
  deriving DecidableEq, Repr

/-- The destination `Config.DOWNLOAD_PATH / f"{message.from_user.id}_{document.file_name}"`. -/
def download_dest (userId : Nat) (file_name : String) : String :=
  "downloads/" ++ toString userId ++ "_" ++ file_name

/-- `PresentationBot.handle_document`: reject with the too-large message when
`document.file_size > Config.MAX_FILE_SIZE`, before fetching any byte.
Otherwise open the final destination path for writing and stream the download
straight into it; then parse the file as a presentation to count its slides.
A download interruption or a parse failure lands in the `except` arm and
reports a generic processing error — the bytes already written at the final
path stay there.  `load` models `Presentation(file_path)` returning `none`
when the library raises. -/
def handle_document (st : BotState) (userId : Nat) (file_name : String)
    (file_size : Nat) (stream : Stream) (load : List Nat → Option Deck) :
    BotState × DocResponse :=
  if file_size > MAX_FILE_SIZE then
    (st, .tooLarge)
  else
    let file_path := download_dest userId file_name
    match stream with
    | .complete bytes =>
      let st2 : BotState :=
        ⟨fun p => if p = file_path then some bytes else st.files p⟩
      match load bytes with
      | some prs => (st2, .success prs.slides.length)
      | none => (st2, .processingError)
    | .interrupted written =>
      (⟨fun p => if p = file_path then some written else st.files p⟩,
        .processingError)

/-!
Serialization.  The spec's `serialize`/`load` are realized in the source by
python-pptx (`prs.save(temp_path)` in `handle_template_choice`,
`Presentation(file_path)` in `handle_document`), i.e. by library code outside
this repository; the definitions below model them from the spec: `serialize`
is deterministic in the deck's content and layout assignments, and `load`
parses the stored representation back, failing on a malformed stream.
-/

/-- Modelled from the spec: the stored form of one string field — its length
followed by its character codes. -/
def encodeString (s : String) : List Nat :=
  s.length :: s.data.map Char.toNat

/-- Read back `n` character codes, returning the remaining stream. -/
def readChars : Nat → List Nat → Option (List Char × List Nat)
  | 0, rest => some ([], rest)
  | _ + 1, [] => none
  | n + 1, c :: rest =>
    match readChars n rest with
    | some (cs, r) => some (Char.ofNat c :: cs, r)
    | none => none

/-- Parse one length-prefixed string from the stream. -/
def decodeString : List Nat → Option (String × List Nat)
  | [] => none
  | len :: rest =>
    match readChars len rest with
    | some (cs, r) => some (String.mk cs, r)
    | none => none

/-- Stored form of the optional subtitle: a presence tag, then the string. -/
def encodeOptStr : Option String → List Nat
  | none => [0]
  | some s => 1 :: encodeString s

/-- Parse the optional subtitle back. -/
def decodeOptStr : List Nat → Option (Option String × List Nat)
  | [] => none
  | tag :: rest =>
    if tag = 0 then some (none, rest)
    else if tag = 1 then
      match decodeString rest with
      | some (s, r) => some (some s, r)
      | none => none
    else none

/-- Stored form of a list: its count, then each element in order. -/
def encodeList (enc : α → List Nat) (l : List α) : List Nat :=
  l.length :: (l.map enc).flatten

/-- Parse `n` consecutive elements with the element parser `dec`. -/
def decodeCount (dec : List Nat → Option (α × List Nat)) :
    Nat → List Nat → Option (List α × List Nat)
  | 0, rest => some ([], rest)
  | n + 1, rest =>
    match dec rest with
    | some (a, r) =>
      match decodeCount dec n r with
      | some (as, r2) => some (a :: as, r2)
      | none => none
    | none => none

/-- Parse one count-prefixed list from the stream. -/
def decodeList (dec : List Nat → Option (α × List Nat)) :
    List Nat → Option (List α × List Nat)
  | [] => none
  | n :: rest => decodeCount dec n rest

/-- Stored form of one bullet paragraph: its text and its font size. -/
def encodeBullet (b : String × Nat) : List Nat :=
  encodeString b.1 ++ [b.2]

/-- Parse one bullet paragraph back. -/
def decodeBullet (bs : List Nat) : Option ((String × Nat) × List Nat) :=
  match decodeString bs with
  | some (s, sz :: r) => some ((s, sz), r)
  | _ => none

/-- Stored form of one placed image: its resource path and offsets. -/
def encodeImage (i : String × Nat × Nat) : List Nat :=
  encodeString i.1 ++ [i.2.1, i.2.2]

/-- Parse one placed image back. -/
def decodeImage (bs : List Nat) : Option ((String × Nat × Nat) × List Nat) :=
  match decodeString bs with
  | some (s, l :: t :: r) => some ((s, l, t), r)
  | _ => none

/-- Stored form of one slide: layout index, title, subtitle, bullets,
images. -/
def encodeSlide (s : Slide) : List Nat :=
  s.layout :: encodeString s.title ++ encodeOptStr s.subtitle ++
    encodeList encodeBullet s.bullets ++ encodeList encodeImage s.images

/-- Parse one slide back from the stream. -/
def decodeSlide : List Nat → Option (Slide × List Nat)
  | [] => none
  | layout :: rest =>
    match decodeString rest with
    | some (title, r1) =>
      match decodeOptStr r1 with
      | some (subtitle, r2) =>
        match decodeList decodeBullet r2 with
        | some (bullets, r3) =>
          match decodeList decodeImage r3 with
          | some (images, r4) =>
            some ({ layout := layout, title := title, subtitle := subtitle,
                    bullets := bullets, images := images }, r4)
          | none => none
        | none => none
      | none => none
    | none => none

/-- Modelled from the spec: `serialize(deck) -> bytes`, deterministic in the
deck's content and layout assignments. -/
def serialize (d : Deck) : List Nat :=
  encodeList encodeSlide d.slides

/-- Modelled from the spec: `load(bytes) -> Deck`, failing (`CorruptDocument`)
when the byte stream is not a well-formed document. -/
def load (bs : List Nat) : Option Deck :=
  match decodeList decodeSlide bs with
  | some (ss, []) => some { slides := ss }
  | _ => none

/-! Round-trip lemmas for the stored representation. -/

theorem readChars_encode (l : List Char) (rest : List Nat) :
    readChars l.length (l.map Char.toNat ++ rest) = some (l, rest) := by
  induction l with
  | nil => simp [readChars]
  | cons c cs ih => simp [readChars, ih, Char.ofNat_toNat]

theorem decodeString_encode (s : String) (rest : List Nat) :
    decodeString (encodeString s ++ rest) = some (s, rest) := by
  cases s with
  | mk data =>
    simp [encodeString, decodeString, String.length, readChars_encode]

theorem decodeOptStr_encode (o : Option String) (rest : List Nat) :
    decodeOptStr (encodeOptStr o ++ rest) = some (o, rest) := by
  cases o with
  | none => simp [encodeOptStr, decodeOptStr]
  | some s => simp [encodeOptStr, decodeOptStr, decodeString_encode]

theorem decodeBullet_encode (b : String × Nat) (rest : List Nat) :
    decodeBullet (encodeBullet b ++ rest) = some (b, rest) := by
  obtain ⟨s, n⟩ := b
  simp [encodeBullet, decodeBullet, List.append_assoc, decodeString_encode]

theorem decodeImage_encode (i : String × Nat × Nat) (rest : List Nat) :
    decodeImage (encodeImage i ++ rest) = some (i, rest) := by
  obtain ⟨s, l, t⟩ := i
  simp [encodeImage, decodeImage, List.append_assoc, decodeString_encode]

theorem decodeCount_encode {α : Type} (dec : List Nat → Option (α × List Nat))
    (enc : α → List Nat)
    (H : ∀ a rest, dec (enc a ++ rest) = some (a, rest)) :
    ∀ (l : List α) (rest : List Nat),
      decodeCount dec l.length ((l.map enc).flatten ++ rest) =
        some (l, rest) := by
  intro l
  induction l with
  | nil => intro rest; simp [decodeCount]
  | cons a as ih =>
    intro rest
    simp [decodeCount, List.append_assoc, H, ih]

theorem decodeList_encode {α : Type} (dec : List Nat → Option (α × List Nat))
    (enc : α → List Nat)
    (H : ∀ a rest, dec (enc a ++ rest) = some (a, rest))
    (l : List α) (rest : List Nat) :
    decodeList dec (encodeList enc l ++ rest) = some (l, rest) := by
  simp [encodeList, decodeList, decodeCount_encode dec enc H]

theorem decodeSlide_encode (s : Slide) (rest : List Nat) :
    decodeSlide (encodeSlide s ++ rest) = some (s, rest) := by
  simp [encodeSlide, decodeSlide, List.append_assoc, decodeString_encode,
    decodeOptStr_encode, decodeList_encode _ _ decodeBullet_encode,
    decodeList_encode _ _ decodeImage_encode]

theorem load_serialize (d : Deck) : load (serialize d) = some d := by
  have h := decodeList_encode decodeSlide encodeSlide decodeSlide_encode
    d.slides []
  rw [List.append_nil] at h
  simp [load, serialize, h]

/-! Claims. -/

/-- C1 counterexample: `add_image_slide` with a non-existing image path
reports `ResourceNotFound`, yet the titled layout-5 slide has already been
appended — the failing call leaves the deck half-mutated, with one more
slide than before. -/
theorem c1_add_image_slide_half_mutation_cex :
    (add_image_slide (fun _ => false) ⟨[]⟩ "Pic" "missing.png").2 =
        some (.ResourceNotFound "missing.png") ∧
      ((add_image_slide (fun _ => false) ⟨[]⟩ "Pic" "missing.png").1).slides.length
        = 1 := by
  decide

/-- C1 amended: `add_title_slide` and `add_content_slide` never fail; when
`add_image_slide` fails with `ResourceNotFound` because `image_path` does not
exist, the titled ImageLayout slide has already been appended, so the deck is
left with its slide count increased by 1 (the slide carries no picture). -/
theorem c1_add_image_slide_fails_after_append (fs : String → Bool)
    (prs : Deck) (title image_path : String) (h : fs image_path = false) :
    add_image_slide fs prs title image_path =
      ({ prs with
          slides := prs.slides ++ [{ blankSlide 5 with title := title }] },
        some (.ResourceNotFound image_path)) := by
  simp [add_image_slide, h]

/-- C1 amended, witness at a concrete input. -/
theorem c1_add_image_slide_fails_after_append_witness :
    (fun _ : String => false) "missing.png" = false ∧
      add_image_slide (fun _ => false) ⟨[]⟩ "Pic" "missing.png" =
        ({ Deck.mk [] with
            slides := (Deck.mk []).slides ++
              [{ blankSlide 5 with title := "Pic" }] },
          some (.ResourceNotFound "missing.png")) :=
  ⟨rfl, c1_add_image_slide_fails_after_append (fun _ => false) ⟨[]⟩ "Pic"
    "missing.png" rfl⟩

/-- C2 counterexample: `add_title_slide` with an empty title does not fail —
there is no validation in the source — and the slide count changes from 0
to 1. -/
theorem c2_empty_title_accepted_cex :
    (add_title_slide ⟨[]⟩ "" "").slides.length = 1 ∧
      add_title_slide ⟨[]⟩ "" "" = ⟨[{ layout := 0, title := "" }]⟩ := by
  decide

/-- C2 amended: `add_title_slide` performs no validation: called with an
empty title it still appends a TitleLayout slide whose title is the empty
string, increasing the slide count by exactly 1; no `ValidationError`
exists in the source. -/
theorem c2_empty_title_appends_anyway (prs : Deck) (subtitle : String) :
    (add_title_slide prs "" subtitle).slides.length =
        prs.slides.length + 1 ∧
      ((add_title_slide prs "" subtitle).slides.getLast?).map Slide.title =
        some "" := by
  by_cases h : subtitle = "" <;>
    simp [add_title_slide, h]

/-- C6: for every deck and every (title, subtitle) with non-empty title,
`add_title_slide` increases the slide count by exactly 1, and the newly
appended slide's title equals `title`. -/
theorem c6_add_title_slide_appends_one (prs : Deck) (title subtitle : String)
    (h : title ≠ "") :
    (add_title_slide prs title subtitle).slides.length =
        prs.slides.length + 1 ∧
      ((add_title_slide prs title subtitle).slides.getLast?).map Slide.title =
        some title := by
  by_cases hs : subtitle = "" <;>
    simp [add_title_slide, hs]

/-- C6 witness at a concrete input. -/
theorem c6_add_title_slide_appends_one_witness :
    ("Quarterly" : String) ≠ "" ∧
      ((add_title_slide ⟨[]⟩ "Quarterly" "2024").slides.length =
          (Deck.mk []).slides.length + 1 ∧
        ((add_title_slide ⟨[]⟩ "Quarterly" "2024").slides.getLast?).map
            Slide.title = some "Quarterly") :=
  ⟨by decide, c6_add_title_slide_appends_one ⟨[]⟩ "Quarterly" "2024"
    (by decide)⟩

/-- C9: `add_title_slide` called with a non-empty title and an empty subtitle
appends a slide with only the title set — the subtitle placeholder stays
untouched (`none`), no bullets, no images, and the existing slides are
unchanged; the placeholder is written exactly when `subtitle` is
non-empty. -/
theorem c9_subtitle_placeholder_frame (prs : Deck) (title subtitle : String)
    (h : title ≠ "") :
    add_title_slide prs title subtitle =
      { prs with slides := prs.slides ++
          [{ layout := 0, title := title,
              subtitle := if subtitle = "" then none else some subtitle,
              bullets := [], images := [] }] } := by
  by_cases hs : subtitle = "" <;>
    simp [add_title_slide, blankSlide, hs]

/-- C9 witness at a concrete input, one instance per branch of the
subtitle conditional. -/
theorem c9_subtitle_placeholder_frame_witness :
    ("T" : String) ≠ "" ∧
      add_title_slide ⟨[]⟩ "T" "" =
        { Deck.mk [] with slides := (Deck.mk []).slides ++
            [{ layout := 0, title := "T",
                subtitle := if ("" : String) = "" then none else some "",
                bullets := [], images := [] }] } :=
  ⟨by decide, c9_subtitle_placeholder_frame ⟨[]⟩ "T" "" (by decide)⟩

/-- C8 counterexample: with the empty string as template name — a name absent
from any catalog, here the empty catalog — `create_presentation` returns a
blank deck instead of failing with `TemplateNotFound`, because the source
tests Python truthiness (`if template_name:`), not presence of the
argument. -/
theorem c8_empty_template_name_cex :
    (fun _ : String => (none : Option Deck)) "" = none ∧
      create_presentation (fun _ => none) (some "") = .ok ⟨[]⟩ :=
  ⟨rfl, rfl⟩

/-- C8 amended: with a non-empty template name, `create_presentation` returns
the catalog's deck for that name and fails with `TemplateNotFound` exactly
when the name is absent; with no template name — or with the falsy empty
name — it returns a blank deck with zero slides. -/
theorem c8_create_presentation_catalog (catalog : String → Option Deck)
    (t : String) (h : t ≠ "") :
    (create_presentation catalog (some t) =
        match catalog t with
        | some d => .ok d
        | none => .error (.TemplateNotFound t)) ∧
      create_presentation catalog none = .ok ⟨[]⟩ := by
  refine ⟨?_, rfl⟩
  cases hc : catalog t <;>
    simp [create_presentation, strTruthy, h, hc]

/-- C8 amended, witness at a concrete one-entry catalog. -/
theorem c8_create_presentation_catalog_witness :
    ("business.pptx" : String) ≠ "" ∧
      ((create_presentation
            (fun n => if n = "business.pptx" then some ⟨[blankSlide 0]⟩
              else none) (some "business.pptx") =
          match
            (fun n => if n = "business.pptx" then some ⟨[blankSlide 0]⟩
              else none) "business.pptx" with
          | some d => .ok d
          | none => .error (.TemplateNotFound "business.pptx")) ∧
        create_presentation
            (fun n => if n = "business.pptx" then some ⟨[blankSlide 0]⟩
              else none) none = .ok ⟨[]⟩) :=
  ⟨by decide, c8_create_presentation_catalog
    (fun n => if n = "business.pptx" then some ⟨[blankSlide 0]⟩ else none)
    "business.pptx" (by decide)⟩

/-- C4: with no `API_TOKEN` in the environment, `Config.API_TOKEN` evaluates
to the non-empty token literal embedded in the source — the program falls
back to a compiled-in secret, which the claim says it must not do. -/
theorem c4_api_token_falls_back_to_embedded :
    API_TOKEN (fun _ => none) = embeddedToken ∧ embeddedToken ≠ "" :=
  ⟨rfl, by decide⟩

/-- C5: an upload whose declared size strictly exceeds the 500 MiB ceiling is
rejected with the too-large reply before the stream is touched: for every
stream the handler returns the bot state unchanged — no byte is read and
nothing is written at any path. -/
theorem c5_too_large_rejected_before_read (st : BotState) (userId : Nat)
    (file_name : String) (file_size : Nat) (stream : Stream)
    (parse : List Nat → Option Deck) (h : MAX_FILE_SIZE < file_size) :
    handle_document st userId file_name file_size stream parse =
      (st, .tooLarge) := by
  simp [handle_document, h]

/-- C5 witness: a 500 MiB + 1 byte upload at a concrete state. -/
theorem c5_too_large_rejected_before_read_witness :
    MAX_FILE_SIZE < MAX_FILE_SIZE + 1 ∧
      handle_document ⟨fun _ => none⟩ 7 "deck.pptx" (MAX_FILE_SIZE + 1)
          (.complete [1]) (fun _ => none) =
        (⟨fun _ => none⟩, .tooLarge) :=
  ⟨Nat.lt_succ_self _,
    c5_too_large_rejected_before_read ⟨fun _ => none⟩ 7 "deck.pptx"
      (MAX_FILE_SIZE + 1) (.complete [1]) (fun _ => none)
      (Nat.lt_succ_self _)⟩

/-- C10: the size gate is strict — the reply is the too-large rejection
exactly when the declared size strictly exceeds `MAX_FILE_SIZE`, and an
upload of exactly the ceiling size proceeds to ingestion: its bytes are
written at the destination path. -/
theorem c10_size_check_is_strict :
    (∀ (st : BotState) (userId : Nat) (file_name : String) (file_size : Nat)
        (stream : Stream) (parse : List Nat → Option Deck),
        (handle_document st userId file_name file_size stream parse).2 =
            .tooLarge ↔ MAX_FILE_SIZE < file_size) ∧
      (∀ (st : BotState) (userId : Nat) (file_name : String)
          (bytes : List Nat) (parse : List Nat → Option Deck),
          ((handle_document st userId file_name MAX_FILE_SIZE
                (.complete bytes) parse).1).files
              (download_dest userId file_name) = some bytes) := by
  constructor
  · intro st u n sz stream parse
    by_cases h : MAX_FILE_SIZE < sz
    · simp [handle_document, h]
    · cases stream with
      | complete bytes =>
        cases hp : parse bytes <;> simp [handle_document, h, hp]
      | interrupted w => simp [handle_document, h]
  · intro st u n bytes parse
    cases hp : parse bytes <;> simp [handle_document, hp]

/-- C3 counterexample: an interrupted download leaves the partially written
bytes visible at the final destination path — the source streams straight
into the final path, with no temporary file and no atomic rename. -/
theorem c3_interrupted_upload_visible_cex :
    (handle_document ⟨fun _ => none⟩ 5 "deck.pptx" 10
          (.interrupted [7, 7]) (fun _ => none)).2 = .processingError ∧
      ((handle_document ⟨fun _ => none⟩ 5 "deck.pptx" 10
            (.interrupted [7, 7]) (fun _ => none)).1).files
          "downloads/5_deck.pptx" = some [7, 7] :=
  ⟨rfl, rfl⟩

/-- C3 amended: bytes are streamed directly into the final destination path
`downloads/{user_id}_{file_name}` — there is no temporary location and no
atomic rename — and when the stream is interrupted the bytes written so far
remain visible at the final path while the handler reports a generic
processing error. -/
theorem c3_direct_write_no_atomic_publish (st : BotState) (userId : Nat)
    (file_name : String) (file_size : Nat) (written : List Nat)
    (parse : List Nat → Option Deck) (h : ¬ MAX_FILE_SIZE < file_size) :
    handle_document st userId file_name file_size (.interrupted written)
        parse =
      (⟨fun p => if p = download_dest userId file_name then some written
          else st.files p⟩, .processingError) := by
  simp [handle_document, h]

/-- C3 amended, witness at a concrete interrupted upload. -/
theorem c3_direct_write_no_atomic_publish_witness :
    ¬ MAX_FILE_SIZE < 10 ∧
      handle_document ⟨fun _ => none⟩ 5 "deck.pptx" 10
          (.interrupted [7, 7]) (fun _ => none) =
        (⟨fun p => if p = download_dest 5 "deck.pptx" then some [7, 7]
            else (BotState.mk fun _ => none).files p⟩, .processingError) :=
  ⟨by decide,
    c3_direct_write_no_atomic_publish ⟨fun _ => none⟩ 5 "deck.pptx" 10
      [7, 7] (fun _ => none) (by decide)⟩

/-- C7: loading the bytes produced by serializing a deck yields a deck with
the same slide count and the same ordered sequence of slide titles
(content round-trip). -/
theorem c7_serialize_load_content_roundtrip (d : Deck) :
    ∃ d2, load (serialize d) = some d2 ∧
      d2.slides.length = d.slides.length ∧
      d2.slides.map Slide.title = d.slides.map Slide.title :=
  ⟨d, load_serialize d, rfl, rfl⟩

end HF
